import Mathlib

/-!
# Verification of the HubSpot CMS safe-update pipeline

Shallow embedding of the core logic of the `hubspot-web-editor-MCP`
repository: the rate-governed request executor (`RateLimiter`,
`HubSpotClient.request`), the layout-tree navigation helpers
(`getWidgetAtLocation`, `setWidgetAtLocation`, the navigation inside
`addWidget` / `removeWidget`), the structural validator
(`validatePageStructure`), and the metadata-merge operations
(`updateBlogPostMetadata`, `updatePageMetadata`).

Modelling conventions:
* JavaScript numbers used for delays, thresholds and the safety margin are
  modelled as `ℚ`; counters and array indices as `ℕ`.
* JavaScript objects with dynamic keys (`layoutSections`, `styles`,
  `params`) are association lists `List (String × _)`; JS guarantees key
  uniqueness but the embedding does not need to assume it: lookup returns
  the first match exactly as property access does.
* `undefined` / absent fields are `Option.none`; the JS falsy checks in the
  source (`!section.rows`, `!cell.widgets`, ...) become matches on `Option`.
* Opaque JSON values that the code only copies around are the inductive
  `JVal`.
* A pipeline step that in the source returns an error envelope *before*
  reaching the `fetch` PATCH call is `Except.error status`; `Except.ok`
  carries the full object that is serialized into the PATCH body.
-/

/-- Opaque JSON value: the embedding of the `any`-typed fields the source
only stores, copies and compares. -/
inductive JVal where
  | s (v : String)
  | n (v : Int)
  | b (v : Bool)
  | null
  deriving DecidableEq, Repr

/-- First-match association-list lookup: the embedding of JS property
access `obj[k]` on an object with string keys. -/
def alookup (k : String) : List (String × α) → Option α
  | [] => none
  | (k', v) :: rest => if k = k' then some v else alookup k rest

/-- Association-list write: the embedding of JS property assignment
`obj[k] = v` (replaces the first binding of `k`, appends if absent). -/
def aset (k : String) (v : α) : List (String × α) → List (String × α)
  | [] => [(k, v)]
  | (k', v') :: rest => if k = k' then (k, v) :: rest else (k', v') :: aset k v rest

/-- The JS object spread `{...a, ...b}`: keys of `a` in order with values
overridden by `b` where present, then the keys of `b` that are not in `a`. -/
def jsSpread (a b : List (String × JVal)) : List (String × JVal) :=
  (a.map fun kv =>
    match alookup kv.1 b with
    | some v => (kv.1, v)
    | none => kv) ++
  b.filter fun kv => decide (alookup kv.1 a = none)

/-- JS `Set` built from a list: iteration order keeps the first occurrence
of each element. -/
def jsSetList (l : List String) : List String :=
  (l.foldl (fun acc x => if x ∈ acc then acc else acc ++ [x]) [])

/-! ## Data model

The layout tree of a `Page` (`layoutSections` in `src/types.ts`, traversed
in `hubspot-client.ts`): a map from section name to a section holding an
ordered list of rows, each row an ordered list of cells, each cell an
ordered list of widgets.  Fields the source accesses are explicit; the
other properties each JS object may carry are kept opaquely in `extra`
so that pass-through behaviour is visible in the embedding. -/

/-- The optional `body` object of a widget: `body.html` plus whatever other
keys the object carries. -/
structure WidgetBody where
  html : Option String
  other : List (String × JVal)
  deriving DecidableEq, Repr

/-- `Widget` from `src/types.ts`: `id`, `name`, `type`, optional `body`,
optional `params` and `styles` maps, plus opaque extra keys. -/
structure Widget where
  id : String
  name : String
  type : String
  body : Option WidgetBody
  params : Option (List (String × JVal))
  styles : Option (List (String × JVal))
  extra : List (String × JVal)
  deriving DecidableEq, Repr

/-- A cell: `cell.widgets` may be absent (`undefined`), which the source
distinguishes from an empty array. -/
structure Cell where
  widgets : Option (List Widget)
  extra : List (String × JVal)
  deriving DecidableEq, Repr

/-- A row: `row.cells` may be absent. -/
structure Row where
  cells : Option (List Cell)
  extra : List (String × JVal)
  deriving DecidableEq, Repr

/-- A layout section: `section.rows` may be absent. -/
structure Section where
  rows : Option (List Row)
  extra : List (String × JVal)
  deriving DecidableEq, Repr

/-- `Page` from `src/types.ts` (the fields the core reads or writes).
`layoutSections` is `none` when the page object lacks it; `widgets` and
`widgetContainers` are opaque `any` values the code only pins/copies. -/
structure Page where
  id : String
  name : String
  slug : String
  state : String
  currentState : Option String
  htmlTitle : Option String
  metaDescription : Option String
  domain : Option String
  url : Option String
  absoluteUrl : Option String
  previewKey : Option String
  created : Option String
  updated : Option String
  publishDate : Option String
  templatePath : Option String
  currentlyPublished : Option Bool
  archivedInDashboard : Option Bool
  widgets : JVal
  widgetContainers : JVal
  layoutSections : Option (List (String × Section))
  deriving DecidableEq, Repr

/-- `WidgetLocation` from `src/types.ts`. -/
structure WidgetLocation where
  sectionName : String
  rowIndex : Nat
  columnIndex : Nat
  widgetIndex : Nat
  deriving DecidableEq, Repr

/-- `Omit<WidgetLocation, 'widgetIndex'>`: the insertion address used by
`addWidget`. -/
structure CellLocation where
  sectionName : String
  rowIndex : Nat
  columnIndex : Nat
  deriving DecidableEq, Repr

/-! ## Tree navigation (`hubspot-client.ts`) -/

/-- `HubSpotClient.getWidgetAtLocation`: resolve a `WidgetLocation` to the
widget it names, `none` on any missing section/row/cell/widget (the source
returns `null`, and the `try/catch` turns the `layoutSections === undefined`
access error into `null` as well). -/
def getWidgetAtLocation (page : Page) (loc : WidgetLocation) : Option Widget :=
  match page.layoutSections with
  | none => none
  | some secs =>
    match alookup loc.sectionName secs with
    | none => none
    | some sec =>
      match sec.rows with
      | none => none
      | some rows =>
        match rows.get? loc.rowIndex with
        | none => none
        | some row =>
          match row.cells with
          | none => none
          | some cells =>
            match cells.get? loc.columnIndex with
            | none => none
            | some cell =>
              match cell.widgets with
              | none => none
              | some ws => ws.get? loc.widgetIndex

/-- `HubSpotClient.setWidgetAtLocation`: write a widget at a location.  The
source mutates `cell.widgets[widgetIndex]` in place and returns `true` once
navigation down to `cell.widgets` succeeded; the functional embedding
returns the updated page (`none` plays the role of `return false`). -/
def setWidgetAtLocation (page : Page) (loc : WidgetLocation) (w : Widget) :
    Option Page :=
  match page.layoutSections with
  | none => none
  | some secs =>
    match alookup loc.sectionName secs with
    | none => none
    | some sec =>
      match sec.rows with
      | none => none
      | some rows =>
        match rows.get? loc.rowIndex with
        | none => none
        | some row =>
          match row.cells with
          | none => none
          | some cells =>
            match cells.get? loc.columnIndex with
            | none => none
            | some cell =>
              match cell.widgets with
              | none => none
              | some ws =>
                let newCell := { cell with widgets := some (ws.set loc.widgetIndex w) }
                let newRow := { row with cells := some (cells.set loc.columnIndex newCell) }
                let newSec := { sec with rows := some (rows.set loc.rowIndex newRow) }
                some { page with layoutSections := some (aset loc.sectionName newSec secs) }

/-- The navigation-and-append step of `HubSpotClient.addWidget`
(STEP 2, lines 1909–1976): resolve the target cell, initialise its
`widgets` array if absent, push the new widget at the tail and return the
full `WidgetLocation` whose trailing index is the previous length.
Errors carry the `status` string of the envelope the source returns. -/
def addWidgetToPage (page : Page) (loc : CellLocation) (w : Widget) :
    Except String (Page × WidgetLocation) :=
  match page.layoutSections with
  | none => .error "SECTION_NOT_FOUND"
  | some secs =>
    match alookup loc.sectionName secs with
    | none => .error "SECTION_NOT_FOUND"
    | some sec =>
      match sec.rows with
      | none => .error "SECTION_NOT_FOUND"
      | some rows =>
        match rows.get? loc.rowIndex with
        | none => .error "ROW_NOT_FOUND"
        | some row =>
          match row.cells with
          | none => .error "ROW_NOT_FOUND"
          | some cells =>
            match cells.get? loc.columnIndex with
            | none => .error "CELL_NOT_FOUND"
            | some cell =>
              let ws := cell.widgets.getD []
              let newCell := { cell with widgets := some (ws ++ [w]) }
              let newRow := { row with cells := some (cells.set loc.columnIndex newCell) }
              let newSec := { sec with rows := some (rows.set loc.rowIndex newRow) }
              let newPage := { page with layoutSections := some (aset loc.sectionName newSec secs) }
              .ok (newPage, ⟨loc.sectionName, loc.rowIndex, loc.columnIndex, ws.length⟩)

/-- The navigation-and-splice step of `HubSpotClient.removeWidget`
(STEP 2, lines 2076–2131): resolve the widget, reject an out-of-bounds
index, splice the element out and return the removed widget together with
the updated page. -/
def removeWidgetFromPage (page : Page) (loc : WidgetLocation) :
    Except String (Page × Widget) :=
  match page.layoutSections with
  | none => .error "SECTION_NOT_FOUND"
  | some secs =>
    match alookup loc.sectionName secs with
    | none => .error "SECTION_NOT_FOUND"
    | some sec =>
      match sec.rows with
      | none => .error "SECTION_NOT_FOUND"
      | some rows =>
        match rows.get? loc.rowIndex with
        | none => .error "ROW_NOT_FOUND"
        | some row =>
          match row.cells with
          | none => .error "ROW_NOT_FOUND"
          | some cells =>
            match cells.get? loc.columnIndex with
            | none => .error "CELL_NOT_FOUND"
            | some cell =>
              match cell.widgets with
              | none => .error "CELL_NOT_FOUND"
              | some ws =>
                match ws.get? loc.widgetIndex with
                | none => .error "WIDGET_NOT_FOUND"
                | some removed =>
                  let newCell := { cell with widgets := some (ws.eraseIdx loc.widgetIndex) }
                  let newRow := { row with cells := some (cells.set loc.columnIndex newCell) }
                  let newSec := { sec with rows := some (rows.set loc.rowIndex newRow) }
                  let newPage := { page with layoutSections := some (aset loc.sectionName newSec secs) }
                  .ok (newPage, removed)

/-! ## Structural extraction and validation (`hubspot-client.ts`) -/

/-- The `layoutSections` name list collected by
`HubSpotClient.extractWidgetsFromPage`: every key of the object is pushed
(the push happens before the shape checks); a missing/non-object
`layoutSections` yields the empty list. -/
def sectionNames (page : Page) : List String :=
  (page.layoutSections.getD []).map Prod.fst

/-- The `totalWidgets` count of `HubSpotClient.extractWidgetsFromPage`:
widgets of every well-shaped section/row/cell, in traversal order. -/
def countWidgets (page : Page) : Nat :=
  ((page.layoutSections.getD []).map fun sv =>
    match sv.2.rows with
    | none => 0
    | some rows =>
      (rows.map fun row =>
        match row.cells with
        | none => 0
        | some cells =>
          (cells.map fun cell => (cell.widgets.getD []).length).sum).sum).sum

/-- `StructuralValidation` from `src/types.ts`. -/
structure StructuralValidation where
  isValid : Bool
  beforeWidgetCount : Nat
  afterWidgetCount : Nat
  beforeSectionCount : Nat
  afterSectionCount : Nat
  warnings : List String
  errors : List String
  deriving DecidableEq, Repr

/-- The validator error naming a removed section (exact source text). -/
def removedSectionMsg (s : String) : String :=
  s!"Layout section \"{s}\" was removed"

/-- The validator warning naming an added section (exact source text). -/
def addedSectionMsg (s : String) : String :=
  s!"Layout section \"{s}\" was added"

/-- `HubSpotClient.validatePageStructure` (lines 1661–1707): compare the
extracted structures of the before/after snapshots; widget-count drift is a
warning, section-count change and removed section names are errors, added
section names are warnings; `isValid` is `errors.isEmpty`. -/
def validatePageStructure (beforePage afterPage : Page) : StructuralValidation :=
  let bNames := sectionNames beforePage
  let aNames := sectionNames afterPage
  let bCount := countWidgets beforePage
  let aCount := countWidgets afterPage
  let bLen := bNames.length
  let aLen := aNames.length
  let countWarnings :=
    if bCount ≠ aCount then
      [s!"Widget count changed from {bCount} to {aCount}"]
    else []
  let sectionCountErrors :=
    if bLen ≠ aLen then
      [s!"Layout section count changed from {bLen} to {aLen}. This indicates structural damage."]
    else []
  let removedErrors :=
    ((jsSetList bNames).filter fun s => decide (s ∉ aNames)).map removedSectionMsg
  let addedWarnings :=
    ((jsSetList aNames).filter fun s => decide (s ∉ bNames)).map addedSectionMsg
  let errors := sectionCountErrors ++ removedErrors
  { isValid := errors.isEmpty
    beforeWidgetCount := bCount
    afterWidgetCount := aCount
    beforeSectionCount := bNames.length
    afterSectionCount := aNames.length
    warnings := countWarnings ++ addedWarnings
    errors := errors }

/-! ## Widget mutation (`HubSpotClient.updateWidgetContent`, STEP 2) -/

/-- The caller-supplied mutation of `WidgetUpdateParams`: optional new
HTML, and optional style/parameter maps to overlay. -/
structure WidgetUpdateInput where
  html : Option String
  styles : Option (List (String × JVal))
  params : Option (List (String × JVal))
  deriving DecidableEq, Repr

/-- Lines 1790–1805 of `hubspot-client.ts`: if `html` is given, create the
`body` object when absent and overwrite `body.html`; if `styles` is given,
`widget.styles = { ...widget.styles, ...params.styles }`; if `params` is
given, the same spread overlay on `widget.params`. -/
def applyWidgetUpdate (w : Widget) (u : WidgetUpdateInput) : Widget :=
  let w₁ :=
    match u.html with
    | none => w
    | some h =>
      match w.body with
      | none => { w with body := some { html := some h, other := [] } }
      | some b => { w with body := some { b with html := some h } }
  let w₂ :=
    match u.styles with
    | none => w₁
    | some st => { w₁ with styles := some (jsSpread (w₁.styles.getD []) st) }
  match u.params with
  | none => w₂
  | some ps => { w₂ with params := some (jsSpread (w₂.params.getD []) ps) }

/-! ## The local (pre-network-write) part of the widget pipelines

`Except.ok` carries exactly the full page object that the source then
serializes into the `PATCH …/draft` body; every `Except.error` is returned
by the source *before* the `this.request(PATCH …)` call, i.e. with no
network write issued. -/

/-- `HubSpotClient.updateWidgetContent` up to (and excluding) the PATCH:
locate the widget, apply the mutation, write it back, validate the mutated
page against the fetched snapshot, and refuse to commit unless
`validation.isValid`. -/
def updateWidgetContentLocal (page : Page) (loc : WidgetLocation)
    (u : WidgetUpdateInput) : Except String (Page × StructuralValidation) :=
  match getWidgetAtLocation page loc with
  | none => .error "WIDGET_NOT_FOUND"
  | some w =>
    match setWidgetAtLocation page loc (applyWidgetUpdate w u) with
    | none => .error "UPDATE_FAILED"
    | some mutated =>
      let validation := validatePageStructure page mutated
      if validation.isValid then .ok (mutated, validation)
      else .error "VALIDATION_FAILED"

/-- `HubSpotClient.removeWidget` up to (and excluding) the PATCH: splice
the widget out, validate, refuse to commit unless `validation.isValid`. -/
def removeWidgetLocal (page : Page) (loc : WidgetLocation) :
    Except String (Page × StructuralValidation) :=
  match removeWidgetFromPage page loc with
  | .error status => .error status
  | .ok (mutated, _) =>
    let validation := validatePageStructure page mutated
    if validation.isValid then .ok (mutated, validation)
    else .error "VALIDATION_FAILED"

/-! ## Rate limiter (`src/rate-limiter.ts`, reproduced in
`docs/hubspot-CMS-API-endpoint-research.md` lines 678–791)

JS numbers are modelled as `ℚ` for the safety margin / delays and as `ℕ`
for counters and milliseconds timestamps. -/

/-- The mutable state of `RateLimiter`. -/
structure RateLimiterState where
  dailyLimit : Nat
  burstLimit : Nat
  dailyRemaining : Nat
  burstRemaining : Nat
  safetyMargin : ℚ
  lastBurstReset : Nat
  burstWindowMs : Nat
  deriving DecidableEq, Repr

/-- The `RateLimiter` constructor: defaults `dailyLimit = 500000`,
`burstLimit = 100`, `burstWindowMs = 10000`, counters full, window start
`now`. -/
def mkRateLimiter (safetyMargin : ℚ) (now : Nat) : RateLimiterState :=
  { dailyLimit := 500000
    burstLimit := 100
    dailyRemaining := 500000
    burstRemaining := 100
    safetyMargin := safetyMargin
    lastBurstReset := now
    burstWindowMs := 10000 }

/-- `RateLimiter.resetBurstIfNeeded`: lazily refill the burst counter when
the window has elapsed. -/
def resetBurstIfNeeded (now : Nat) (st : RateLimiterState) : RateLimiterState :=
  if st.burstWindowMs ≤ now - st.lastBurstReset then
    { st with burstRemaining := st.burstLimit, lastBurstReset := now }
  else st

/-- `RateLimiter.canMakeRequest`: after the lazy reset, refuse when either
remaining counter is at or below `Math.floor(limit * safetyMargin)` (the
daily budget is checked first in the source).  Returns the decision with
the (possibly reset) state. -/
def canMakeRequest (now : Nat) (st : RateLimiterState) : Bool × RateLimiterState :=
  let st' := resetBurstIfNeeded now st
  let dailySafeThreshold := Int.floor ((st'.dailyLimit : ℚ) * st'.safetyMargin)
  let burstSafeThreshold := Int.floor ((st'.burstLimit : ℚ) * st'.safetyMargin)
  if (st'.dailyRemaining : Int) ≤ dailySafeThreshold then (false, st')
  else if (st'.burstRemaining : Int) ≤ burstSafeThreshold then (false, st')
  else (true, st')

/-- `RateLimiter.recordRequest`: decrement both counters, clamped at zero
(`Math.max(0, x - 1)` is `Nat` subtraction). -/
def recordRequest (now : Nat) (st : RateLimiterState) : RateLimiterState :=
  let st' := resetBurstIfNeeded now st
  { st' with
    dailyRemaining := st'.dailyRemaining - 1
    burstRemaining := st'.burstRemaining - 1 }

/-- `RateLimiter.calculateBackoff`: `Math.pow(2, attempt) * baseDelayMs`
plus a jitter draw `Math.random() * 1000`, passed in explicitly (the source
default `baseDelayMs` is 2000). -/
def calculateBackoff (attempt : Nat) (baseDelayMs jitter : ℚ) : ℚ :=
  2 ^ attempt * baseDelayMs + jitter

/-- The jitter ceiling of `calculateBackoff`: `Math.random() * 1000` is a
draw from `[0, 1000)`. -/
def jitterCeilingMs : ℚ := 1000

/-- The `baseDelayMs` default of `calculateBackoff`; the client always
calls `calculateBackoff(attempt)` with this default. -/
def defaultBaseDelayMs : ℚ := 2000

/-- `HubSpotClient.maxRetries`. -/
def maxRetries : Nat := 4

/-- What `HubSpotClient.request` does before reaching the network. -/
inductive AdmissionStep where
  /-- The request was refused locally: the source returns the
  `RATE_LIMIT_SAFETY` error envelope and never calls `fetch`. -/
  | blocked (status : String)
  /-- The request proceeds to `fetch`; the state already reflects
  `recordRequest`. -/
  | send (st : RateLimiterState)
  deriving DecidableEq, Repr

/-- Lines 732–756 of `hubspot-client.ts`: consult
`rateLimiter.canMakeRequest()`; on refusal return the local-throttle
failure (no network call), otherwise `recordRequest` and send. -/
def requestAdmission (st : RateLimiterState) (now : Nat) : AdmissionStep :=
  let (ok, st') := canMakeRequest now st
  if ok then .send (recordRequest now st') else .blocked "RATE_LIMIT_SAFETY"

/-- The response data consulted by the retry logic: the HTTP status and
the caller-suggested retry delay (the `Retry-After` header, in ms) the
remote throttling response may carry. -/
structure HttpThrottleResponse where
  status : Nat
  retryAfterMs : Option ℚ
  deriving DecidableEq, Repr

/-- Lines 766–772 of `hubspot-client.ts`: on a 429 with retries left, the
slept delay is `rateLimiter.calculateBackoff(attempt)` — the response's
suggested delay is never read.  Returns `some delay` when a retry is
scheduled, `none` otherwise. -/
def retryDelayOn429 (resp : HttpThrottleResponse) (attempt : Nat) (jitter : ℚ) :
    Option ℚ :=
  if resp.status = 429 ∧ attempt < maxRetries then
    some (calculateBackoff attempt defaultBaseDelayMs jitter)
  else none

/-! ## Metadata merge (`updateBlogPostMetadata`, `updatePageMetadata`) -/

/-- `BlogPost` from `src/types.ts` (all declared fields). -/
structure BlogPost where
  id : String
  name : String
  slug : String
  state : String
  currentState : Option String
  postBody : Option String
  postSummary : Option String
  metaDescription : Option String
  featuredImage : Option String
  featuredImageAltText : Option String
  authorName : Option String
  blogAuthorId : Option String
  tagIds : Option (List Int)
  publishDate : Option String
  created : Option String
  updated : Option String
  url : Option String
  previewKey : Option String
  htmlTitle : Option String
  pageExpiryEnabled : Option Bool
  pageExpiryDate : Option Int
  pageExpiryRedirectUrl : Option String
  absoluteUrl : Option String
  archivedInDashboard : Option Bool
  currentlyPublished : Option Bool
  publicAccessRulesEnabled : Option Bool
  publicAccessRules : Option (List JVal)
  widgetContainers : JVal
  widgets : JVal
  layoutSections : JVal
  deriving DecidableEq, Repr

/-- The metadata input of `updateBlogPostMetadata`.  The declared
`BlogPostUpdateMetadata` type has exactly the nine allow-listed flat
fields; the four content-bearing fields are included here as options so
the theorems also quantify over runtime inputs that *attempt* to set them
(the JS spread `{...beforeState, ...metadata}` would apply any such key
before the explicit re-pins). -/
structure BlogPostMetadataInput where
  name : Option String
  slug : Option String
  metaDescription : Option String
  htmlTitle : Option String
  featuredImage : Option String
  featuredImageAltText : Option String
  blogAuthorId : Option String
  authorName : Option String
  tagIds : Option (List Int)
  postBody : Option String
  widgets : Option JVal
  widgetContainers : Option JVal
  layoutSections : Option JVal
  deriving DecidableEq, Repr

/-- Spread override for an optional field: a key present in the right
operand wins. -/
def ovr (new old : Option α) : Option α :=
  match new with
  | some v => some v
  | none => old

/-- STEP 2 of `HubSpotClient.updateBlogPostMetadata` (lines 938–948): the
full object `{...beforeState, ...metadata, postBody: beforeState.postBody,
widgets: …, widgetContainers: …, layoutSections: …}` that STEP 3 then
serializes into the `PATCH …/draft` body. -/
def mergeBlogPostMetadata (before : BlogPost) (md : BlogPostMetadataInput) :
    BlogPost :=
  let spread :=
    { before with
      name := (md.name.getD before.name)
      slug := (md.slug.getD before.slug)
      metaDescription := ovr md.metaDescription before.metaDescription
      htmlTitle := ovr md.htmlTitle before.htmlTitle
      featuredImage := ovr md.featuredImage before.featuredImage
      featuredImageAltText := ovr md.featuredImageAltText before.featuredImageAltText
      blogAuthorId := ovr md.blogAuthorId before.blogAuthorId
      authorName := ovr md.authorName before.authorName
      tagIds := ovr md.tagIds before.tagIds
      postBody := ovr md.postBody before.postBody
      widgets := (md.widgets.getD before.widgets)
      widgetContainers := (md.widgetContainers.getD before.widgetContainers)
      layoutSections := (md.layoutSections.getD before.layoutSections) }
  { spread with
    postBody := before.postBody
    widgets := before.widgets
    widgetContainers := before.widgetContainers
    layoutSections := before.layoutSections }

/-- The metadata input of `updatePageMetadata` (`PageUpdateMetadata` has
exactly four flat fields; the three content-bearing fields model runtime
inputs that attempt to set them, as for blog posts). -/
structure PageMetadataInput where
  name : Option String
  slug : Option String
  htmlTitle : Option String
  metaDescription : Option String
  widgets : Option JVal
  widgetContainers : Option JVal
  layoutSections : Option (Option (List (String × Section)))
  deriving DecidableEq, Repr

/-- STEP 2 of `HubSpotClient.updatePageMetadata` (lines 1438–1446): the
full object `{...beforeState, ...metadata, widgets: …,
widgetContainers: …, layoutSections: …}` sent in the draft PATCH. -/
def mergePageMetadata (before : Page) (md : PageMetadataInput) : Page :=
  let spread :=
    { before with
      name := (md.name.getD before.name)
      slug := (md.slug.getD before.slug)
      htmlTitle := ovr md.htmlTitle before.htmlTitle
      metaDescription := ovr md.metaDescription before.metaDescription
      widgets := (md.widgets.getD before.widgets)
      widgetContainers := (md.widgetContainers.getD before.widgetContainers)
      layoutSections := (md.layoutSections.getD before.layoutSections) }
  { spread with
    widgets := before.widgets
    widgetContainers := before.widgetContainers
    layoutSections := before.layoutSections }

/-- Spec-level accessor naming the cell a `CellLocation` addresses (same
navigation as `getWidgetAtLocation`, stopping at the cell). -/
def cellAt (page : Page) (loc : CellLocation) : Option Cell :=
  match page.layoutSections with
  | none => none
  | some secs =>
    match alookup loc.sectionName secs with
    | none => none
    | some sec =>
      match sec.rows with
      | none => none
      | some rows =>
        match rows.get? loc.rowIndex with
        | none => none
        | some row =>
          match row.cells with
          | none => none
          | some cells => cells.get? loc.columnIndex

/-! ## Concrete sample data (used by witnesses and counterexamples) -/

/-- A concrete widget with all content kinds populated. -/
def sampleWidget (i : String) : Widget :=
  { id := i
    name := "Rich text"
    type := "custom_html"
    body := some { html := some "<p>hello</p>", other := [("css_class", JVal.s "wide")] }
    params := some [("columns", JVal.n 2), ("title", JVal.s "Intro")]
    styles := some [("color", JVal.s "red"), ("margin", JVal.n 8)]
    extra := [("label", JVal.s "block")] }

/-- A fresh widget to insert. -/
def freshWidget : Widget :=
  { id := "widget-1700000000000"
    name := "New module"
    type := "custom_html"
    body := some { html := some "<p>new</p>", other := [] }
    params := some []
    styles := some []
    extra := [] }

/-- A concrete page skeleton (flat fields only). -/
def basePage : Page :=
  { id := "p1"
    name := "Home"
    slug := "home"
    state := "DRAFT"
    currentState := some "DRAFT"
    htmlTitle := some "Home page"
    metaDescription := some "desc"
    domain := none
    url := some "https://example.com/home"
    absoluteUrl := none
    previewKey := some "pk"
    created := none
    updated := none
    publishDate := none
    templatePath := some "custom/home"
    currentlyPublished := some false
    archivedInDashboard := some false
    widgets := JVal.null
    widgetContainers := JVal.null
    layoutSections := none }

/-- A concrete page: one section `"main"`, one row, one cell holding two
widgets. -/
def samplePage : Page :=
  { basePage with
    layoutSections := some
      [("main",
        { rows := some
            [{ cells := some
                [{ widgets := some [sampleWidget "w0", sampleWidget "w1"]
                   extra := [("type", JVal.s "cell")] }]
               extra := [("ver", JVal.n 1)] }]
          extra := [("x", JVal.b true)] })] }

/-- A section with no rows (adds no widgets). -/
def emptySection : Section := { rows := some [], extra := [] }

/-- Counterexample page pair for section addition: `addedAfterPage` is
`addedBeforePage` with one extra (empty) section, widgets unchanged. -/
def addedBeforePage : Page :=
  { basePage with layoutSections := some [("main", emptySection)] }

/-- See `addedBeforePage`. -/
def addedAfterPage : Page :=
  { basePage with
    layoutSections := some [("main", emptySection), ("extra", emptySection)] }

/-- A page whose `layoutSections` object is empty: every section of
`samplePage` is missing from it. -/
def noSectionsPage : Page := { basePage with layoutSections := some [] }

/-- A concrete rate-limiter state on the burst threshold: the scenario of
the spec (`burstRemaining == 5`, `burstLimit == 100`,
`safetyMargin == 0.1`). -/
def nearLimitState : RateLimiterState :=
  { dailyLimit := 500000
    burstLimit := 100
    dailyRemaining := 400000
    burstRemaining := 5
    safetyMargin := 1 / 10
    lastBurstReset := 0
    burstWindowMs := 10000 }

/-! ## Lemmas: `jsSetList` -/

theorem mem_jsSetList {x : String} {l : List String} : x ∈ jsSetList l ↔ x ∈ l := by
  suffices h : ∀ acc, x ∈ l.foldl (fun acc x => if x ∈ acc then acc else acc ++ [x]) acc ↔ x ∈ acc ∨ x ∈ l by
    simpa [jsSetList] using h []
  induction l with
  | nil => simp
  | cons y ys ih =>
    intro acc
    by_cases hy : y ∈ acc
    · simp only [List.foldl_cons, if_pos hy, ih acc, List.mem_cons]
      constructor
      · rintro (h | h)
        · exact Or.inl h
        · exact Or.inr (Or.inr h)
      · rintro (h | h | h)
        · exact Or.inl h
        · exact Or.inl (h ▸ hy)
        · exact Or.inr h
    · simp only [List.foldl_cons, if_neg hy, ih (acc ++ [y]), List.mem_append,
        List.mem_singleton, List.mem_cons]
      tauto

/-! ## Lemmas: association-list primitives -/

theorem alookup_aset_self (k : String) (v : α) (l : List (String × α)) :
    alookup k (aset k v l) = some v := by
  induction l with
  | nil => simp [aset, alookup]
  | cons kv rest ih =>
    by_cases h : k = kv.1
    · simp [aset, alookup, h]
    · simp [aset, alookup, h, ih]

theorem alookup_aset_ne (k k' : String) (v : α) (l : List (String × α))
    (h : k' ≠ k) : alookup k' (aset k v l) = alookup k' l := by
  induction l with
  | nil => simp [aset, alookup, h]
  | cons kv rest ih =>
    by_cases hk : k = kv.1
    · subst hk
      simp [aset, alookup, h, fun hc => h hc]
    · by_cases hk' : k' = kv.1
      · simp [aset, alookup, hk, hk']
      · simp [aset, alookup, hk, hk', ih]

theorem aset_aset (k : String) (v₁ v₂ : α) (l : List (String × α)) :
    aset k v₂ (aset k v₁ l) = aset k v₂ l := by
  induction l with
  | nil => simp [aset]
  | cons kv rest ih =>
    by_cases h : k = kv.1
    · simp [aset, h]
    · simp [aset, h, ih]

theorem aset_self (k : String) (v : α) (l : List (String × α))
    (h : alookup k l = some v) : aset k v l = l := by
  induction l with
  | nil => simp [alookup] at h
  | cons kv rest ih =>
    by_cases hk : k = kv.1
    · simp only [alookup, if_pos hk] at h
      cases kv
      simp_all [aset]
    · simp only [alookup, if_neg hk] at h
      simp [aset, hk, ih h]

/-! ## Lemmas: list indexing -/

theorem get?_set_self (l : List α) (i : Nat) (a : α) (h : i < l.length) :
    (l.set i a).get? i = some a := by
  induction l generalizing i with
  | nil => simp at h
  | cons x xs ih =>
    cases i with
    | zero => simp [List.set]
    | succ n =>
      simp only [List.set, List.get?]
      exact ih n (by simpa using h)

theorem set_get_self (l : List α) (i : Nat) (a : α) (h : l.get? i = some a) :
    l.set i a = l := by
  induction l generalizing i with
  | nil => simp [List.get?] at h
  | cons x xs ih =>
    cases i with
    | zero => simp [List.get?] at h; simp [List.set, h]
    | succ n =>
      simp only [List.get?] at h
      simp [List.set, ih n h]

theorem get?_concat_self (l : List α) (a : α) :
    (l ++ [a]).get? l.length = some a := by
  induction l with
  | nil => rfl
  | cons x xs ih => simp [ih]

theorem eraseIdx_concat_self (l : List α) (a : α) :
    (l ++ [a]).eraseIdx l.length = l := by
  induction l with
  | nil => rfl
  | cons x xs ih => simpa [List.eraseIdx] using ih

theorem lt_length_of_get?_eq_some {l : List α} {i : Nat} {a : α}
    (h : l.get? i = some a) : i < l.length := by
  by_contra hge
  rw [List.get?_eq_none.mpr (Nat.le_of_not_lt hge)] at h
  exact Option.noConfusion h

/-! ## Lemmas: `jsSpread` -/

theorem alookup_append (k : String) (l₁ l₂ : List (String × α)) :
    alookup k (l₁ ++ l₂) = ovr (alookup k l₁) (alookup k l₂) := by
  induction l₁ with
  | nil => simp [alookup, ovr]
  | cons kv rest ih =>
    by_cases h : k = kv.1
    · simp [alookup, h, ovr]
    · simp [alookup, h, ih]

theorem alookup_override_map (k : String) (a b : List (String × JVal)) :
    alookup k (a.map fun kv =>
      match alookup kv.1 b with
      | some v => (kv.1, v)
      | none => kv) =
    (alookup k a).map fun v => (alookup k b).getD v := by
  induction a with
  | nil => simp [alookup]
  | cons kv rest ih =>
    by_cases h : k = kv.1
    · subst h
      cases hb : alookup kv.1 b <;> simp [alookup, hb]
    · cases hm : alookup kv.1 b <;> simp [alookup, h, hm, ih]

theorem alookup_filter_of_none (k : String) (a b : List (String × JVal))
    (h : alookup k a = none) :
    alookup k (b.filter fun kv => decide (alookup kv.1 a = none)) =
      alookup k b := by
  induction b with
  | nil => simp
  | cons kv rest ih =>
    by_cases hk : k = kv.1
    · subst hk
      simp [List.filter, h, alookup]
    · cases hp : decide (alookup kv.1 a = none) <;>
        simp [List.filter, hp, alookup, hk, ih]

/-- Property lookup after a JS spread `{...a, ...b}`: the right operand
wins, the left is the fallback. -/
theorem jsSpread_alookup (k : String) (a b : List (String × JVal)) :
    alookup k (jsSpread a b) = ovr (alookup k b) (alookup k a) := by
  unfold jsSpread
  rw [alookup_append, alookup_override_map]
  cases ha : alookup k a with
  | none =>
    rw [alookup_filter_of_none k a b ha]
    cases hb : alookup k b <;> simp [ovr]
  | some v =>
    cases hb : alookup k b <;> simp [ovr, hb]

theorem isEmpty_eq_false_of_mem {a : α} {l : List α} (h : a ∈ l) :
    l.isEmpty = false := by
  cases l with
  | nil => simp at h
  | cons x xs => rfl

/-! ## Claim theorems -/

/-- C1 — Metadata-merge safety: for every fetched before-state of a blog
post and every metadata input (including inputs that attempt to set
content fields), the full object `updateBlogPostMetadata` builds and sends
in the draft PATCH has `postBody`, `widgets`, `widgetContainers` and
`layoutSections` equal to the before-state's values, and every field
outside the allow-list (`name`, `slug`, `metaDescription`, `htmlTitle`,
`featuredImage`, `featuredImageAltText`, `blogAuthorId`, `authorName`,
`tagIds`) is unchanged; likewise for `updatePageMetadata` with its
four-field allow-list. -/
theorem metadata_merge_safety (before : BlogPost) (md : BlogPostMetadataInput)
    (pbefore : Page) (pmd : PageMetadataInput) :
    (mergeBlogPostMetadata before md).postBody = before.postBody ∧
    (mergeBlogPostMetadata before md).widgets = before.widgets ∧
    (mergeBlogPostMetadata before md).widgetContainers = before.widgetContainers ∧
    (mergeBlogPostMetadata before md).layoutSections = before.layoutSections ∧
    (mergeBlogPostMetadata before md).id = before.id ∧
    (mergeBlogPostMetadata before md).state = before.state ∧
    (mergeBlogPostMetadata before md).currentState = before.currentState ∧
    (mergeBlogPostMetadata before md).postSummary = before.postSummary ∧
    (mergeBlogPostMetadata before md).publishDate = before.publishDate ∧
    (mergeBlogPostMetadata before md).created = before.created ∧
    (mergeBlogPostMetadata before md).updated = before.updated ∧
    (mergeBlogPostMetadata before md).url = before.url ∧
    (mergeBlogPostMetadata before md).previewKey = before.previewKey ∧
    (mergeBlogPostMetadata before md).pageExpiryEnabled = before.pageExpiryEnabled ∧
    (mergeBlogPostMetadata before md).pageExpiryDate = before.pageExpiryDate ∧
    (mergeBlogPostMetadata before md).pageExpiryRedirectUrl = before.pageExpiryRedirectUrl ∧
    (mergeBlogPostMetadata before md).absoluteUrl = before.absoluteUrl ∧
    (mergeBlogPostMetadata before md).archivedInDashboard = before.archivedInDashboard ∧
    (mergeBlogPostMetadata before md).currentlyPublished = before.currentlyPublished ∧
    (mergeBlogPostMetadata before md).publicAccessRulesEnabled = before.publicAccessRulesEnabled ∧
    (mergeBlogPostMetadata before md).publicAccessRules = before.publicAccessRules ∧
    (mergePageMetadata pbefore pmd).widgets = pbefore.widgets ∧
    (mergePageMetadata pbefore pmd).widgetContainers = pbefore.widgetContainers ∧
    (mergePageMetadata pbefore pmd).layoutSections = pbefore.layoutSections ∧
    (mergePageMetadata pbefore pmd).id = pbefore.id ∧
    (mergePageMetadata pbefore pmd).state = pbefore.state ∧
    (mergePageMetadata pbefore pmd).currentState = pbefore.currentState ∧
    (mergePageMetadata pbefore pmd).domain = pbefore.domain ∧
    (mergePageMetadata pbefore pmd).url = pbefore.url ∧
    (mergePageMetadata pbefore pmd).absoluteUrl = pbefore.absoluteUrl ∧
    (mergePageMetadata pbefore pmd).previewKey = pbefore.previewKey ∧
    (mergePageMetadata pbefore pmd).created = pbefore.created ∧
    (mergePageMetadata pbefore pmd).updated = pbefore.updated ∧
    (mergePageMetadata pbefore pmd).publishDate = pbefore.publishDate ∧
    (mergePageMetadata pbefore pmd).templatePath = pbefore.templatePath ∧
    (mergePageMetadata pbefore pmd).currentlyPublished = pbefore.currentlyPublished ∧
    (mergePageMetadata pbefore pmd).archivedInDashboard = pbefore.archivedInDashboard := by
  repeat' apply And.intro
  all_goals rfl

/-- C3 — Validator section-loss detection: whenever a section name of the
before page is absent from the after page, `validatePageStructure` returns
`isValid = false` with a non-empty error list containing the entry naming
the removed section. -/
theorem validator_section_loss (beforePage afterPage : Page) (s : String)
    (hb : s ∈ sectionNames beforePage) (ha : s ∉ sectionNames afterPage) :
    (validatePageStructure beforePage afterPage).isValid = false ∧
    (validatePageStructure beforePage afterPage).errors ≠ [] ∧
    removedSectionMsg s ∈ (validatePageStructure beforePage afterPage).errors := by
  have hmem : removedSectionMsg s ∈
      (validatePageStructure beforePage afterPage).errors := by
    simp only [validatePageStructure, List.mem_append]
    right
    exact List.mem_map_of_mem removedSectionMsg
      (List.mem_filter.mpr ⟨mem_jsSetList.mpr hb, by simpa using ha⟩)
  refine ⟨?_, List.ne_nil_of_mem hmem, hmem⟩
  have : (validatePageStructure beforePage afterPage).errors.isEmpty = false :=
    isEmpty_eq_false_of_mem hmem
  simpa [validatePageStructure] using this

/-- C3 witness: removing the only section `"main"` is detected. -/
theorem validator_section_loss_witness :
    ("main" ∈ sectionNames samplePage) ∧
    ("main" ∉ sectionNames noSectionsPage) ∧
    (validatePageStructure samplePage noSectionsPage).isValid = false ∧
    removedSectionMsg "main" ∈
      (validatePageStructure samplePage noSectionsPage).errors := by
  have h := validator_section_loss samplePage noSectionsPage "main"
    (by decide) (by decide)
  exact ⟨by decide, by decide, h.1, h.2.2⟩

/-- C5 counterexample: `addedAfterPage` keeps every section of
`addedBeforePage`, adds the section `"extra"` and leaves every widget
unchanged, yet `validatePageStructure` returns `isValid = false` (the
section-count change is recorded as an error), contradicting the claim
that it returns `isValid = true`. -/
theorem section_addition_counterexample :
    (∀ s ∈ sectionNames addedBeforePage, s ∈ sectionNames addedAfterPage) ∧
    "extra" ∈ sectionNames addedAfterPage ∧
    "extra" ∉ sectionNames addedBeforePage ∧
    countWidgets addedBeforePage = countWidgets addedAfterPage ∧
    addedSectionMsg "extra" ∈
      (validatePageStructure addedBeforePage addedAfterPage).warnings ∧
    (validatePageStructure addedBeforePage addedAfterPage).errors ≠ [] ∧
    (validatePageStructure addedBeforePage addedAfterPage).isValid = false := by
  decide

/-- C5 (amended) — Section addition is flagged, not benign: when the after
page contains every section name of the before page plus at least one
added one (section keys being unique as JS object keys are), the validator
records a warning naming the added section, but the section-count change
is recorded as an error, so `errors` is non-empty and — `isValid` being
false exactly when `errors` is non-empty — `isValid = false`. -/
theorem section_addition_flags_error (beforePage afterPage : Page)
    (hsub : ∀ s ∈ sectionNames beforePage, s ∈ sectionNames afterPage)
    (t : String) (ht : t ∈ sectionNames afterPage)
    (htn : t ∉ sectionNames beforePage)
    (hnb : (sectionNames beforePage).Nodup) :
    addedSectionMsg t ∈ (validatePageStructure beforePage afterPage).warnings ∧
    (validatePageStructure beforePage afterPage).errors ≠ [] ∧
    (validatePageStructure beforePage afterPage).isValid = false := by
  have hwarn : addedSectionMsg t ∈
      (validatePageStructure beforePage afterPage).warnings := by
    simp only [validatePageStructure, List.mem_append]
    right
    exact List.mem_map_of_mem addedSectionMsg
      (List.mem_filter.mpr ⟨mem_jsSetList.mpr ht, by simpa using htn⟩)
  have hlen : (sectionNames beforePage).length ≠ (sectionNames afterPage).length := by
    have hnodup : (t :: sectionNames beforePage).Nodup := by
      simpa [List.nodup_cons] using ⟨htn, hnb⟩
    have hsub' : (t :: sectionNames beforePage) ⊆ sectionNames afterPage := by
      intro x hx
      rcases List.mem_cons.mp hx with h | h
      · exact h ▸ ht
      · exact hsub x h
    have := (List.subperm_of_subset hnodup hsub').length_le
    simp only [List.length_cons] at this
    omega
  have herr : (validatePageStructure beforePage afterPage).errors ≠ [] := by
    simp [validatePageStructure, hlen]
  refine ⟨hwarn, herr, ?_⟩
  have hval : (validatePageStructure beforePage afterPage).errors.isEmpty = false := by
    cases herrs : (validatePageStructure beforePage afterPage).errors with
    | nil => exact absurd herrs herr
    | cons x xs => rfl
  simpa [validatePageStructure] using hval

/-- C5 (amended) witness: adding the empty section `"extra"`. -/
theorem section_addition_flags_error_witness :
    addedSectionMsg "extra" ∈
      (validatePageStructure addedBeforePage addedAfterPage).warnings ∧
    (validatePageStructure addedBeforePage addedAfterPage).errors ≠ [] ∧
    (validatePageStructure addedBeforePage addedAfterPage).isValid = false :=
  section_addition_flags_error addedBeforePage addedAfterPage
    (by decide) "extra" (by decide) (by decide) (by decide)

/-- C2 — No-partial-write guarantee: for both widget-level mutation
pipelines, an unresolved target address or a failed structural validation
of the mutated page yields a typed failure (`Except.error status`) and the
PATCH body (`Except.ok`) is never produced; conversely, whenever the
pipeline does proceed to the PATCH, the validation of the committed object
against the fetched snapshot passed. -/
theorem no_write_on_invalid (page : Page) (loc : WidgetLocation)
    (u : WidgetUpdateInput) :
    (getWidgetAtLocation page loc = none →
      updateWidgetContentLocal page loc u = .error "WIDGET_NOT_FOUND") ∧
    (∀ w mutated, getWidgetAtLocation page loc = some w →
      setWidgetAtLocation page loc (applyWidgetUpdate w u) = some mutated →
      (validatePageStructure page mutated).isValid = false →
      updateWidgetContentLocal page loc u = .error "VALIDATION_FAILED") ∧
    (∀ p v, updateWidgetContentLocal page loc u = .ok (p, v) →
      v = validatePageStructure page p ∧ v.isValid = true) ∧
    (∀ s, removeWidgetFromPage page loc = .error s →
      removeWidgetLocal page loc = .error s) ∧
    (∀ p rw, removeWidgetFromPage page loc = .ok (p, rw) →
      (validatePageStructure page p).isValid = false →
      removeWidgetLocal page loc = .error "VALIDATION_FAILED") ∧
    (∀ p v, removeWidgetLocal page loc = .ok (p, v) →
      v = validatePageStructure page p ∧ v.isValid = true) := by
  refine ⟨?_, ?_, ?_, ?_, ?_, ?_⟩
  · intro h
    simp [updateWidgetContentLocal, h]
  · intro w mutated hw hset hval
    simp [updateWidgetContentLocal, hw, hset, hval]
  · intro p v hok
    unfold updateWidgetContentLocal at hok
    cases hw : getWidgetAtLocation page loc with
    | none => simp [hw] at hok
    | some w =>
      simp only [hw] at hok
      cases hset : setWidgetAtLocation page loc (applyWidgetUpdate w u) with
      | none => simp [hset] at hok
      | some mutated =>
        simp only [hset] at hok
        by_cases hval : (validatePageStructure page mutated).isValid
        · simp only [hval, if_true] at hok
          cases hok
          exact ⟨rfl, hval⟩
        · simp [hval] at hok
  · intro s hs
    simp [removeWidgetLocal, hs]
  · intro p rw hok hval
    simp [removeWidgetLocal, hok, hval]
  · intro p v hok
    unfold removeWidgetLocal at hok
    cases hrm : removeWidgetFromPage page loc with
    | error s => simp [hrm] at hok
    | ok pr =>
      rw [hrm] at hok
      by_cases hval : (validatePageStructure page pr.1).isValid
      · simp only [hval, if_true] at hok
        cases hok
        exact ⟨rfl, hval⟩
      · simp [hval] at hok

/-- C2 witness: a location whose section does not exist is refused with
`WIDGET_NOT_FOUND` before any PATCH body is built, and a section-deleting
state is never committed. -/
theorem no_write_on_invalid_witness :
    updateWidgetContentLocal samplePage ⟨"missing", 0, 0, 0⟩
      ⟨some "<p>x</p>", none, none⟩ = .error "WIDGET_NOT_FOUND" :=
  (no_write_on_invalid samplePage ⟨"missing", 0, 0, 0⟩
    ⟨some "<p>x</p>", none, none⟩).1 (by decide)

theorem applyWidgetUpdate_styles_eq (w : Widget) (u : WidgetUpdateInput)
    (st : List (String × JVal)) (h : u.styles = some st) :
    (applyWidgetUpdate w u).styles = some (jsSpread (w.styles.getD []) st) := by
  obtain ⟨uh, us, up⟩ := u
  cases h
  cases uh with
  | none => cases up <;> simp [applyWidgetUpdate]
  | some hv => cases hb : w.body <;> cases up <;> simp [applyWidgetUpdate, hb]

theorem applyWidgetUpdate_params_eq (w : Widget) (u : WidgetUpdateInput)
    (ps : List (String × JVal)) (h : u.params = some ps) :
    (applyWidgetUpdate w u).params = some (jsSpread (w.params.getD []) ps) := by
  obtain ⟨uh, us, up⟩ := u
  cases h
  cases uh with
  | none => cases us <;> simp [applyWidgetUpdate]
  | some hv => cases hb : w.body <;> cases us <;> simp [applyWidgetUpdate, hb]

/-- C10 — Widget-update mutation is a key-wise overlay, not a replacement:
when `styles` (resp. `params`) is supplied, every key of the resulting
map resolves to the supplied value when the key was supplied and to the
before-widget's value otherwise (the JS spread `{...old, ...new}`); and
when only `html` is supplied, only `body.html` changes — `id`, `name`,
`type`, `styles`, `params` (and the other body keys) are unchanged. -/
theorem widget_update_overlay (w : Widget) (u : WidgetUpdateInput) :
    (∀ st, u.styles = some st → ∀ k,
      alookup k ((applyWidgetUpdate w u).styles.getD []) =
        ovr (alookup k st) (alookup k (w.styles.getD []))) ∧
    (∀ ps, u.params = some ps → ∀ k,
      alookup k ((applyWidgetUpdate w u).params.getD []) =
        ovr (alookup k ps) (alookup k (w.params.getD []))) ∧
    (∀ h, u = ⟨some h, none, none⟩ →
      (applyWidgetUpdate w u).id = w.id ∧
      (applyWidgetUpdate w u).name = w.name ∧
      (applyWidgetUpdate w u).type = w.type ∧
      (applyWidgetUpdate w u).styles = w.styles ∧
      (applyWidgetUpdate w u).params = w.params ∧
      (applyWidgetUpdate w u).extra = w.extra ∧
      (applyWidgetUpdate w u).body.map WidgetBody.html = some (some h) ∧
      (applyWidgetUpdate w u).body.map WidgetBody.other =
        some ((w.body.map WidgetBody.other).getD [])) := by
  refine ⟨?_, ?_, ?_⟩
  · intro st hst k
    rw [applyWidgetUpdate_styles_eq w u st hst]
    simp [jsSpread_alookup]
  · intro ps hps k
    rw [applyWidgetUpdate_params_eq w u ps hps]
    simp [jsSpread_alookup]
  · intro h hu
    subst hu
    cases hb : w.body <;>
      simp [applyWidgetUpdate, hb]

/-- C10 witness: overlaying `styles = {color: "blue"}` on `sampleWidget`
keeps the unsupplied `margin` key and overrides `color`. -/
theorem widget_update_overlay_witness :
    alookup "color" ((applyWidgetUpdate (sampleWidget "w0")
        ⟨none, some [("color", JVal.s "blue")], none⟩).styles.getD []) =
      ovr (alookup "color" [("color", JVal.s "blue")])
        (alookup "color" ((sampleWidget "w0").styles.getD [])) ∧
    alookup "margin" ((applyWidgetUpdate (sampleWidget "w0")
        ⟨none, some [("color", JVal.s "blue")], none⟩).styles.getD []) =
      ovr (alookup "margin" [("color", JVal.s "blue")])
        (alookup "margin" ((sampleWidget "w0").styles.getD [])) :=
  ⟨(widget_update_overlay (sampleWidget "w0") _).1 [("color", JVal.s "blue")] rfl "color",
   (widget_update_overlay (sampleWidget "w0") _).1 [("color", JVal.s "blue")] rfl "margin"⟩

/-- C6 — Admission-control threshold: `canMakeRequest` returns `false`
exactly when, after lazily resetting the burst window, `burstRemaining`
is at or below `⌊burstLimit * safetyMargin⌋` or `dailyRemaining` is at or
below `⌊dailyLimit * safetyMargin⌋`; and whenever it returns `false`, the
request layer answers `RATE_LIMIT_SAFETY` locally without reaching the
network send. -/
theorem admission_threshold (st : RateLimiterState) (now : Nat) :
    ((canMakeRequest now st).1 = false ↔
      ((resetBurstIfNeeded now st).burstRemaining : Int) ≤
          Int.floor (((resetBurstIfNeeded now st).burstLimit : ℚ) *
            (resetBurstIfNeeded now st).safetyMargin) ∨
      ((resetBurstIfNeeded now st).dailyRemaining : Int) ≤
          Int.floor (((resetBurstIfNeeded now st).dailyLimit : ℚ) *
            (resetBurstIfNeeded now st).safetyMargin)) ∧
    ((canMakeRequest now st).1 = false →
      requestAdmission st now = .blocked "RATE_LIMIT_SAFETY") := by
  constructor
  · by_cases hd : ((resetBurstIfNeeded now st).dailyRemaining : Int) ≤
        Int.floor (((resetBurstIfNeeded now st).dailyLimit : ℚ) *
          (resetBurstIfNeeded now st).safetyMargin) <;>
      by_cases hb : ((resetBurstIfNeeded now st).burstRemaining : Int) ≤
        Int.floor (((resetBurstIfNeeded now st).burstLimit : ℚ) *
          (resetBurstIfNeeded now st).safetyMargin) <;>
      simp [canMakeRequest, hd, hb]
  · intro h
    unfold requestAdmission
    cases hcm : canMakeRequest now st with
    | mk ok st' =>
      have : ok = false := by rw [hcm] at h; exact h
      simp [this]

/-- C6 witness: the spec scenario `burstRemaining = 5`, `burstLimit = 100`,
`safetyMargin = 0.1` (threshold 10) is refused locally with no send. -/
theorem admission_threshold_witness :
    (canMakeRequest 0 nearLimitState).1 = false ∧
    requestAdmission nearLimitState 0 = .blocked "RATE_LIMIT_SAFETY" := by
  have h := admission_threshold nearLimitState 0
  have hreset : resetBurstIfNeeded 0 nearLimitState = nearLimitState := rfl
  have hfalse : (canMakeRequest 0 nearLimitState).1 = false := by
    refine h.1.mpr (Or.inl ?_)
    rw [hreset]
    have h10 : ((nearLimitState.burstLimit : ℚ) * nearLimitState.safetyMargin) = 10 := by
      norm_num [nearLimitState]
    rw [h10]
    norm_num [nearLimitState]
  exact ⟨hfalse, h.2 hfalse⟩

/-- C7 counterexample: with the valid jitter draws 900 (attempt 0) and 0
(attempt 1) and `baseDelayMs = 2000`, the claimed inequality
`delay(attempt+1) − jitterCeiling ≥ 2 × (delay(attempt) − jitterCeiling)`
fails: `4000 − 1000 = 3000 < 3800 = 2 × (2900 − 1000)`. -/
theorem backoff_monotonicity_counterexample :
    (0 : ℚ) ≤ 900 ∧ (900 : ℚ) < jitterCeilingMs ∧
    (0 : ℚ) ≤ 0 ∧ (0 : ℚ) < jitterCeilingMs ∧
    ¬ (calculateBackoff 1 2000 0 - jitterCeilingMs ≥
        2 * (calculateBackoff 0 2000 900 - jitterCeilingMs)) := by
  norm_num [calculateBackoff, jitterCeilingMs]

/-- C7 (amended) — Backoff monotonicity of the non-jittered component: for
every `baseDelayMs`, every attempt and every pair of jitter draws,
subtracting each delay's *own* jitter (rather than the jitter ceiling),
the non-jittered component exactly doubles between consecutive attempts:
`delay(attempt+1) − jitter' = 2 × (delay(attempt) − jitter)`. -/
theorem backoff_component_doubles (attempt : Nat) (base j j' : ℚ) :
    calculateBackoff (attempt + 1) base j' - j' =
      2 * (calculateBackoff attempt base j - j) := by
  simp only [calculateBackoff, pow_succ]
  ring

/-- C8 — Backoff delay formula: `calculateBackoff` is
`2 ^ attempt * baseDelayMs` plus the jitter draw, the jitter is strictly
below the ceiling 1000 and hence below one full default base unit (2000);
with the default `baseDelayMs = 2000` the attempt-0 delay lies in
`[2000, 3000)` and the attempt-1 delay lies in `[4000, 5000)`. -/
theorem backoff_delay_formula (attempt : Nat) (base jitter : ℚ)
    (h0 : 0 ≤ jitter) (h1 : jitter < jitterCeilingMs) :
    calculateBackoff attempt base jitter = 2 ^ attempt * base + jitter ∧
    jitter < defaultBaseDelayMs ∧
    (2000 ≤ calculateBackoff 0 defaultBaseDelayMs jitter ∧
      calculateBackoff 0 defaultBaseDelayMs jitter < 3000) ∧
    (4000 ≤ calculateBackoff 1 defaultBaseDelayMs jitter ∧
      calculateBackoff 1 defaultBaseDelayMs jitter < 5000) := by
  rw [jitterCeilingMs] at h1
  refine ⟨rfl, ?_, ⟨?_, ?_⟩, ⟨?_, ?_⟩⟩ <;>
    simp only [calculateBackoff, defaultBaseDelayMs, pow_zero, pow_one, one_mul] <;>
    linarith

/-- C8 witness: the jitter draw 500 at attempts 0 and 1. -/
theorem backoff_delay_formula_witness :
    calculateBackoff 3 1000 500 = 2 ^ 3 * 1000 + 500 ∧
    (500 : ℚ) < defaultBaseDelayMs ∧
    (2000 ≤ calculateBackoff 0 defaultBaseDelayMs 500 ∧
      calculateBackoff 0 defaultBaseDelayMs 500 < 3000) ∧
    (4000 ≤ calculateBackoff 1 defaultBaseDelayMs 500 ∧
      calculateBackoff 1 defaultBaseDelayMs 500 < 5000) :=
  backoff_delay_formula 3 1000 500 (by norm_num) (by norm_num [jitterCeilingMs])

/-- C4 — the retry of a throttled (429) request sleeps for the
backoff-policy-computed delay even when the response carries a
caller-suggested retry delay: at the failing input (a 429 on attempt 0
suggesting 7777 ms) the code sleeps `calculateBackoff(0) = 2000` ms, and
the scheduled delay is independent of the suggested one — the code never
reads it, contradicting the documented precedence of the suggested
delay. -/
theorem retry_ignores_suggested_delay :
    retryDelayOn429 { status := 429, retryAfterMs := some 7777 } 0 0 =
      some (calculateBackoff 0 defaultBaseDelayMs 0) ∧
    calculateBackoff 0 defaultBaseDelayMs 0 = 2000 ∧
    (2000 : ℚ) ≠ 7777 ∧
    (∀ r₁ r₂ : Option ℚ, ∀ attempt : Nat, ∀ jitter : ℚ,
      retryDelayOn429 { status := 429, retryAfterMs := r₁ } attempt jitter =
        retryDelayOn429 { status := 429, retryAfterMs := r₂ } attempt jitter) := by
  refine ⟨?_, ?_, by norm_num, fun r₁ r₂ attempt jitter => rfl⟩
  · simp [retryDelayOn429, maxRetries]
  · norm_num [calculateBackoff, defaultBaseDelayMs]

theorem addWidgetToPage_eq (page : Page) (secs : List (String × Section))
    (sec : Section) (rows : List Row) (row : Row) (cells : List Cell)
    (cell : Cell) (loc : CellLocation) (w : Widget)
    (hls : page.layoutSections = some secs)
    (hsec : alookup loc.sectionName secs = some sec)
    (hrows : sec.rows = some rows)
    (hrow : rows.get? loc.rowIndex = some row)
    (hcells : row.cells = some cells)
    (hcell : cells.get? loc.columnIndex = some cell) :
    addWidgetToPage page loc w = .ok
      ({ page with layoutSections := some (aset loc.sectionName
          { sec with rows := some (rows.set loc.rowIndex
            { row with cells := some (cells.set loc.columnIndex
              { cell with widgets := some (cell.widgets.getD [] ++ [w]) }) }) } secs) },
       ⟨loc.sectionName, loc.rowIndex, loc.columnIndex,
         (cell.widgets.getD []).length⟩) := by
  simp only [addWidgetToPage, hls, hsec, hrows, hrow, hcells, hcell]

theorem getWidget_after_insert (page : Page) (secs : List (String × Section))
    (sec : Section) (rows : List Row) (row : Row) (cells : List Cell)
    (cell : Cell) (loc : CellLocation) (w : Widget)
    (hrow : rows.get? loc.rowIndex = some row)
    (hcell : cells.get? loc.columnIndex = some cell) :
    getWidgetAtLocation
      { page with layoutSections := some (aset loc.sectionName
          { sec with rows := some (rows.set loc.rowIndex
            { row with cells := some (cells.set loc.columnIndex
              { cell with widgets := some (cell.widgets.getD [] ++ [w]) }) }) } secs) }
      ⟨loc.sectionName, loc.rowIndex, loc.columnIndex,
        (cell.widgets.getD []).length⟩ = some w := by
  simp only [getWidgetAtLocation, alookup_aset_self,
    get?_set_self _ _ _ (lt_length_of_get?_eq_some hrow),
    get?_set_self _ _ _ (lt_length_of_get?_eq_some hcell),
    get?_concat_self]

theorem removeWidget_after_insert (page : Page) (secs : List (String × Section))
    (sec : Section) (rows : List Row) (row : Row) (cells : List Cell)
    (cell : Cell) (loc : CellLocation) (w : Widget)
    (hrow : rows.get? loc.rowIndex = some row)
    (hcell : cells.get? loc.columnIndex = some cell) :
    removeWidgetFromPage
      { page with layoutSections := some (aset loc.sectionName
          { sec with rows := some (rows.set loc.rowIndex
            { row with cells := some (cells.set loc.columnIndex
              { cell with widgets := some (cell.widgets.getD [] ++ [w]) }) }) } secs) }
      ⟨loc.sectionName, loc.rowIndex, loc.columnIndex,
        (cell.widgets.getD []).length⟩ =
    .ok ({ page with layoutSections := some (aset loc.sectionName
        { sec with rows := some (rows.set loc.rowIndex
          { row with cells := some (cells.set loc.columnIndex
            { cell with widgets := some (cell.widgets.getD []) }) }) } secs) }, w) := by
  have hw := get?_concat_self (cell.widgets.getD []) w
  simp only [removeWidgetFromPage, alookup_aset_self,
    get?_set_self _ _ _ (lt_length_of_get?_eq_some hrow),
    get?_set_self _ _ _ (lt_length_of_get?_eq_some hcell),
    hw, eraseIdx_concat_self, List.set_set, aset_aset]

/-- C9 — Tree round-trip: for every page containing the addressed cell,
`addWidget`'s navigation appends the widget to that cell's widget sequence
and returns the address whose trailing index is the previous sequence
length; `getWidgetAtLocation` at that returned address yields exactly the
inserted widget; and `removeWidget`'s navigation at the returned address
succeeds, removes exactly that widget and restores the cell's original
widget sequence — when the cell had a widget array, the whole page is
restored verbatim. -/
theorem tree_roundtrip (page : Page) (secs : List (String × Section))
    (sec : Section) (rows : List Row) (row : Row) (cells : List Cell)
    (cell : Cell) (loc : CellLocation) (w : Widget)
    (hls : page.layoutSections = some secs)
    (hsec : alookup loc.sectionName secs = some sec)
    (hrows : sec.rows = some rows)
    (hrow : rows.get? loc.rowIndex = some row)
    (hcells : row.cells = some cells)
    (hcell : cells.get? loc.columnIndex = some cell) :
    ∃ inserted,
      addWidgetToPage page loc w = .ok (inserted,
        ⟨loc.sectionName, loc.rowIndex, loc.columnIndex,
          (cell.widgets.getD []).length⟩) ∧
      getWidgetAtLocation inserted
        ⟨loc.sectionName, loc.rowIndex, loc.columnIndex,
          (cell.widgets.getD []).length⟩ = some w ∧
      ∃ restored,
        removeWidgetFromPage inserted
          ⟨loc.sectionName, loc.rowIndex, loc.columnIndex,
            (cell.widgets.getD []).length⟩ = .ok (restored, w) ∧
        cellAt restored loc = some { cell with widgets := some (cell.widgets.getD []) } ∧
        (∀ ws, cell.widgets = some ws → restored = page) := by
  refine ⟨_, addWidgetToPage_eq page secs sec rows row cells cell loc w
      hls hsec hrows hrow hcells hcell,
    getWidget_after_insert page secs sec rows row cells cell loc w hrow hcell,
    _, removeWidget_after_insert page secs sec rows row cells cell loc w hrow hcell,
    ?_, ?_⟩
  · simp only [cellAt, alookup_aset_self,
      get?_set_self _ _ _ (lt_length_of_get?_eq_some hrow),
      get?_set_self _ _ _ (lt_length_of_get?_eq_some hcell)]
  · intro ws hw
    obtain ⟨cw, ce⟩ := cell
    obtain ⟨rc, re⟩ := row
    obtain ⟨sr, se⟩ := sec
    have hw' : cw = some ws := hw
    have hcells' : rc = some cells := hcells
    have hrows' : sr = some rows := hrows
    subst hw' hcells' hrows'
    simp only [Option.getD_some]
    rw [set_get_self _ _ _ hcell, set_get_self _ _ _ hrow,
      aset_self _ _ _ hsec, ← hls]

/-- C9 witness: inserting `freshWidget` into `samplePage`'s two-widget
cell returns trailing index 2, locates the widget there, and removing it
restores `samplePage` verbatim. -/
theorem tree_roundtrip_witness :
    ∃ inserted,
      addWidgetToPage samplePage ⟨"main", 0, 0⟩ freshWidget =
        .ok (inserted, ⟨"main", 0, 0, 2⟩) ∧
      getWidgetAtLocation inserted ⟨"main", 0, 0, 2⟩ = some freshWidget ∧
      ∃ restored,
        removeWidgetFromPage inserted ⟨"main", 0, 0, 2⟩ =
          .ok (restored, freshWidget) ∧
        restored = samplePage := by
  obtain ⟨inserted, hadd, hget, restored, hrm, hcellw, hfull⟩ :=
    tree_roundtrip samplePage _ _ _ _ _ _ ⟨"main", 0, 0⟩ freshWidget
      rfl rfl rfl rfl rfl rfl
  exact ⟨inserted, hadd, hget, restored, hrm, hfull _ rfl⟩
